import Mathlib

/-
Shallow embedding of the Deployment Tracker backend (src/backend/server.py).
Timestamps are modelled as integers (seconds); the document store is a record
of per-kind lists; Mongo find_one / update_one / delete_one act on the first
document matching the filter; HTTPException(status_code, detail) is modelled
by the ApiError structure and fallible handlers return Except ApiError.
-/

namespace DeploymentTracker

/-- UserRole enum from server.py. -/
inductive UserRole where
  | admin
  | developer
deriving DecidableEq

/-- Priority enum from server.py. -/
inductive Priority where
  | low
  | medium
  | high
deriving DecidableEq

/-- BugStatus enum from server.py. -/
inductive BugStatus where
  | «open»
  | in_progress
  | resolved
deriving DecidableEq

/-- FixStatus enum from server.py. -/
inductive FixStatus where
  | pending
  | deployed
deriving DecidableEq

/-- IdeaStatus enum from server.py. -/
inductive IdeaStatus where
  | new
  | under_review
  | approved
  | rejected
deriving DecidableEq

/-- Environment enum from server.py. -/
inductive Environment where
  | dev
  | staging
  | prod
deriving DecidableEq

/-- User model from server.py. -/
structure User where
  id : String
  username : String
  email : String
  password_hash : String
  role : UserRole
  created_at : Int
deriving DecidableEq

/-- UserCreate registration payload from server.py; role defaults to developer
on the wire but is caller-suppliable. -/
structure UserCreate where
  username : String
  email : String
  password : String
  role : UserRole
deriving DecidableEq

/-- Bug model from server.py. -/
structure Bug where
  id : String
  title : String
  description : String
  priority : Priority
  status : BugStatus
  assigned_to : Option String
  created_by : String
  created_at : Int
  updated_at : Int
deriving DecidableEq

/-- BugUpdate partial-update payload from server.py: every field optional. -/
structure BugUpdate where
  title : Option String
  description : Option String
  priority : Option Priority
  status : Option BugStatus
  assigned_to : Option String
deriving DecidableEq

/-- Fix model from server.py. Note: it has no updated_at field. -/
structure Fix where
  id : String
  title : String
  description : String
  related_bug_id : Option String
  status : FixStatus
  created_by : String
  created_at : Int
deriving DecidableEq

/-- FixUpdate partial-update payload from server.py. -/
structure FixUpdate where
  title : Option String
  description : Option String
  status : Option FixStatus
deriving DecidableEq

/-- Deployment model from server.py. -/
structure Deployment where
  id : String
  version : String
  description : String
  environment : Environment
  deployed_by : String
  deployed_at : Int
  changes_included : List String
deriving DecidableEq

/-- Idea model from server.py. Note: it has no updated_at field. -/
structure Idea where
  id : String
  title : String
  description : String
  priority : Priority
  status : IdeaStatus
  created_by : String
  created_at : Int
deriving DecidableEq

/-- IdeaUpdate partial-update payload from server.py. -/
structure IdeaUpdate where
  title : Option String
  description : Option String
  priority : Option Priority
  status : Option IdeaStatus
deriving DecidableEq

/-- DashboardStats model from server.py. -/
structure DashboardStats where
  total_bugs : Nat
  open_bugs : Nat
  resolved_bugs : Nat
  pending_fixes : Nat
  deployed_fixes : Nat
  recent_deployments : Nat
  new_ideas : Nat
  total_users : Nat
deriving DecidableEq

/-- The Mongo database: one collection per kind. -/
structure Store where
  users : List User
  bugs : List Bug
  fixes : List Fix
  deployments : List Deployment
  ideas : List Idea
deriving DecidableEq

/-- HTTPException carries a status code and a detail string. -/
structure ApiError where
  status_code : Nat
  detail : String
deriving DecidableEq

/-- Mongo update_one with a set document rewrites the first document matching
the filter, leaving the rest of the collection unchanged. -/
def setFirst (p : α → Bool) (f : α → α) : List α → List α
  | [] => []
  | x :: xs => if p x then f x :: xs else x :: setFirst p f xs

/-- After rewriting the first match, find_one on the same filter returns the
rewritten document, provided the rewrite preserves the filter. -/
theorem find?_setFirst (p : α → Bool) (f : α → α) (l : List α) (x : α)
    (hx : l.find? p = some x) (hf : p (f x) = true) :
    (setFirst p f l).find? p = some (f x) := by
  induction l with
  | nil => simp [List.find?] at hx
  | cons y ys ih =>
    by_cases hy : p y
    · simp [List.find?, hy] at hx
      subst hx
      simp [setFirst, hy, List.find?, hf]
    · simp [List.find?, hy] at hx
      simp [setFirst, hy, List.find?, ih hx]

/- ---------------------------------------------------------------------
Credential Store: the bcrypt library. hashpw embeds a version tag prefixed
to the per-call salt; checkpw re-derives from the embedded salt. The key
derivation itself is modelled by a concrete injective stand-in (its
one-wayness is outside every claim below); what matters is the digest
format: bcrypt.checkpw raises ValueError (Invalid salt) whenever the digest
does not carry a well-formed bcrypt encoding, rather than returning False.
--------------------------------------------------------------------- -/

/-- Stand-in for the bcrypt key derivation function. -/
def bcryptKdfModel (password salt : String) : String :=
  password ++ ":" ++ salt

/-- bcrypt.hashpw: version/cost tag, then the 22-character salt, then the
derived key. -/
def bcryptHashpw (password salt : String) : String :=
  "$2b$12$" ++ salt ++ bcryptKdfModel password salt

/-- A digest parses as bcrypt only when it begins with the modular-crypt
tag; the check is phrased over the character list. -/
def bcryptWellFormed (hashed : String) : Bool :=
  hashed.data.take 4 == "$2b$".data

/-- bcrypt.checkpw: on a well-formed digest, recompute from the embedded salt
and compare; on a malformed digest raise ValueError (Invalid salt), modelled
as Except.error. -/
def bcryptCheckpw (password hashed : String) : Except String Bool :=
  if bcryptWellFormed hashed then
    .ok (bcryptHashpw password ((hashed.drop 7).take 22) == hashed)
  else
    .error "Invalid salt"

/-- hash_password from server.py; the per-call salt from bcrypt.gensalt is an
explicit argument. -/
def hash_password (password salt : String) : String :=
  bcryptHashpw password salt

/-- verify_password from server.py: a direct call to bcrypt.checkpw. -/
def verify_password (password hashed : String) : Except String Bool :=
  bcryptCheckpw password hashed

/- ---------------------------------------------------------------------
Token Service and Identity Resolver.
--------------------------------------------------------------------- -/

/-- JWT_EXPIRATION_HOURS setting from server.py. -/
def JWT_EXPIRATION_HOURS : Int := 24

/-- Decoded JWT claim set: the sub claim may be absent, exp is absolute. -/
structure TokenPayload where
  sub : Option String
  exp : Int
deriving DecidableEq

/-- A presented bearer credential: either a token signed with the process
secret, carrying its claim set, or a string whose signature does not verify
or whose payload cannot be decoded. -/
inductive Credential where
  | signed (payload : TokenPayload)
  | invalid
deriving DecidableEq

/-- create_access_token from server.py with data = single sub claim:
expiry is issue time plus the 24-hour window. -/
def create_access_token (sub : String) (now : Int) : Credential :=
  .signed { sub := some sub, exp := now + JWT_EXPIRATION_HOURS * 3600 }

/-- jwt.decode: PyJWTError (hence none) when the signature does not verify,
the payload cannot be decoded, or the exp claim is at or before now. -/
def jwtDecode (cred : Credential) (now : Int) : Option TokenPayload :=
  match cred with
  | .invalid => none
  | .signed p => if p.exp ≤ now then none else some p

/-- Mongo find_one on the users collection by the id field. -/
def findUser (s : Store) (uid : String) : Option User :=
  s.users.find? (fun u => u.id == uid)

/-- get_current_user from server.py: decode the bearer token, require a sub
claim, then resolve it against the users collection. -/
def get_current_user (s : Store) (cred : Credential) (now : Int) :
    Except ApiError User :=
  match jwtDecode cred now with
  | none => .error ⟨401, "Invalid authentication credentials"⟩
  | some payload =>
    match payload.sub with
    | none => .error ⟨401, "Invalid authentication credentials"⟩
    | some uid =>
      match findUser s uid with
      | none => .error ⟨401, "User not found"⟩
      | some u => .ok u

/-- canMutate predicate of the spec, read off the permission conditional that
every update/delete handler repeats: mutation is allowed unless the caller is
a non-admin who is not the creator of record. -/
def canMutate (user : User) (created_by : String) : Bool :=
  !(user.role != UserRole.admin && created_by != user.id)

/- ---------------------------------------------------------------------
Auth routes.
--------------------------------------------------------------------- -/

/-- register from server.py: reject when a user already holds the username or
the email, otherwise create the user with the caller-supplied role. The
server-assigned uuid and the bcrypt salt are explicit arguments. -/
def register (s : Store) (user_data : UserCreate) (new_id salt : String)
    (now : Int) : Except ApiError (User × Store) :=
  match s.users.find? (fun u =>
      u.username == user_data.username || u.email == user_data.email) with
  | some _ => .error ⟨400, "Username or email already registered"⟩
  | none =>
    let user : User :=
      { id := new_id
        username := user_data.username
        email := user_data.email
        password_hash := hash_password user_data.password salt
        role := user_data.role
        created_at := now }
    .ok (user, { s with users := s.users ++ [user] })

/- ---------------------------------------------------------------------
Bug routes.
--------------------------------------------------------------------- -/

/-- get_bugs from server.py: find().to_list(1000) returns at most the first
1000 documents of the collection. -/
def get_bugs (s : Store) : List Bug :=
  s.bugs.take 1000

/-- The field application of update_bug: the set document holds exactly the
payload fields that are not None, plus a fresh updated_at. -/
def applyBugUpdate (bug : Bug) (u : BugUpdate) (now : Int) : Bug :=
  { bug with
    title := u.title.getD bug.title
    description := u.description.getD bug.description
    priority := u.priority.getD bug.priority
    status := u.status.getD bug.status
    assigned_to := match u.assigned_to with
      | some v => some v
      | none => bug.assigned_to
    updated_at := now }

/-- update_bug from server.py: find_one (404 when absent), the permission
conditional (403), then update_one with the non-None fields plus updated_at
and return the re-read document, which is the rewritten first match. -/
def update_bug (s : Store) (bug_id : String) (bug_update : BugUpdate)
    (current_user : User) (now : Int) : Except ApiError (Bug × Store) :=
  match s.bugs.find? (fun b => b.id == bug_id) with
  | none => .error ⟨404, "Bug not found"⟩
  | some bug =>
    if current_user.role ≠ UserRole.admin ∧ bug.created_by ≠ current_user.id then
      .error ⟨403, "Permission denied"⟩
    else
      let rewrite := fun b => applyBugUpdate b bug_update now
      .ok (applyBugUpdate bug bug_update now,
        { s with bugs := setFirst (fun b => b.id == bug_id) rewrite s.bugs })

/-- delete_bug from server.py: find_one (404 when absent), the permission
conditional (403), then delete_one removes the first matching document. -/
def delete_bug (s : Store) (bug_id : String) (current_user : User) :
    Except ApiError Store :=
  match s.bugs.find? (fun b => b.id == bug_id) with
  | none => .error ⟨404, "Bug not found"⟩
  | some bug =>
    if current_user.role ≠ UserRole.admin ∧ bug.created_by ≠ current_user.id then
      .error ⟨403, "Permission denied"⟩
    else
      .ok { s with bugs := s.bugs.eraseP (fun b => b.id == bug_id) }

/- ---------------------------------------------------------------------
Fix routes.
--------------------------------------------------------------------- -/

/-- get_fixes from server.py: find().to_list(1000). -/
def get_fixes (s : Store) : List Fix :=
  s.fixes.take 1000

/-- The field application of update_fix: only the non-None payload fields;
no timestamp is touched (Fix has none beyond created_at). -/
def applyFixUpdate (fix : Fix) (u : FixUpdate) : Fix :=
  { fix with
    title := u.title.getD fix.title
    description := u.description.getD fix.description
    status := u.status.getD fix.status }

/-- update_fix from server.py: find_one (404), the permission conditional
(403), then update_one with the non-None fields and return the re-read
document. -/
def update_fix (s : Store) (fix_id : String) (fix_update : FixUpdate)
    (current_user : User) : Except ApiError (Fix × Store) :=
  match s.fixes.find? (fun f => f.id == fix_id) with
  | none => .error ⟨404, "Fix not found"⟩
  | some fix =>
    if current_user.role ≠ UserRole.admin ∧ fix.created_by ≠ current_user.id then
      .error ⟨403, "Permission denied"⟩
    else
      let rewrite := fun f => applyFixUpdate f fix_update
      .ok (applyFixUpdate fix fix_update,
        { s with fixes := setFirst (fun f => f.id == fix_id) rewrite s.fixes })

/- ---------------------------------------------------------------------
Idea routes.
--------------------------------------------------------------------- -/

/-- get_deployments from server.py: find().to_list(1000). -/
def get_deployments (s : Store) : List Deployment :=
  s.deployments.take 1000

/-- get_ideas from server.py: find().to_list(1000). -/
def get_ideas (s : Store) : List Idea :=
  s.ideas.take 1000

/-- The field application of update_idea: only the non-None payload fields;
no timestamp is touched (Idea has none beyond created_at). -/
def applyIdeaUpdate (idea : Idea) (u : IdeaUpdate) : Idea :=
  { idea with
    title := u.title.getD idea.title
    description := u.description.getD idea.description
    priority := u.priority.getD idea.priority
    status := u.status.getD idea.status }

/-- update_idea from server.py: find_one (404), the permission conditional
(403), then update_one with the non-None fields and return the re-read
document. -/
def update_idea (s : Store) (idea_id : String) (idea_update : IdeaUpdate)
    (current_user : User) : Except ApiError (Idea × Store) :=
  match s.ideas.find? (fun i => i.id == idea_id) with
  | none => .error ⟨404, "Idea not found"⟩
  | some idea =>
    if current_user.role ≠ UserRole.admin ∧ idea.created_by ≠ current_user.id then
      .error ⟨403, "Permission denied"⟩
    else
      let rewrite := fun i => applyIdeaUpdate i idea_update
      .ok (applyIdeaUpdate idea idea_update,
        { s with ideas := setFirst (fun i => i.id == idea_id) rewrite s.ideas })

/- ---------------------------------------------------------------------
Dashboard route.
--------------------------------------------------------------------- -/

/-- get_dashboard_stats from server.py: eight independent count_documents
queries; recent deployments are those with deployed_at at or after
now minus 7 days (a lower bound only). -/
def get_dashboard_stats (s : Store) (now : Int) : DashboardStats :=
  { total_bugs := s.bugs.length
    open_bugs := s.bugs.countP (fun b => b.status == BugStatus.«open»)
    resolved_bugs := s.bugs.countP (fun b => b.status == BugStatus.resolved)
    pending_fixes := s.fixes.countP (fun f => f.status == FixStatus.pending)
    deployed_fixes := s.fixes.countP (fun f => f.status == FixStatus.deployed)
    recent_deployments := s.deployments.countP
      (fun d => decide (now - 7 * 86400 ≤ d.deployed_at))
    new_ideas := s.ideas.countP (fun i => i.status == IdeaStatus.new)
    total_users := s.users.length }

/- ---------------------------------------------------------------------
Helper lemmas.
--------------------------------------------------------------------- -/

theorem canMutate_true_iff (u : User) (cb : String) :
    canMutate u cb = true ↔ (u.role = UserRole.admin ∨ cb = u.id) := by
  simp [canMutate, bne]

theorem canMutate_false_iff (u : User) (cb : String) :
    canMutate u cb = false ↔ (u.role ≠ UserRole.admin ∧ cb ≠ u.id) := by
  simp [canMutate, bne]

/-- The permission conditional of update_bug decides exactly canMutate. -/
theorem update_bug_denied_iff (s : Store) (bug_id : String) (bug_update : BugUpdate)
    (u : User) (now : Int) (bug : Bug)
    (hb : s.bugs.find? (fun b => b.id == bug_id) = some bug) :
    update_bug s bug_id bug_update u now = .error ⟨403, "Permission denied"⟩ ↔
      canMutate u bug.created_by = false := by
  rw [canMutate_false_iff]
  unfold update_bug
  rw [hb]
  by_cases hperm : u.role ≠ UserRole.admin ∧ bug.created_by ≠ u.id
  · simp [hperm]
  · simp [hperm]

/-- Shape of update_bug once the defect has been found: the permission
conditional decides between the 403 error and the rewritten document. -/
theorem update_bug_found (s : Store) (bid : String) (upd : BugUpdate)
    (u : User) (now : Int) (b : Bug)
    (hb : s.bugs.find? (fun x => x.id == bid) = some b) :
    update_bug s bid upd u now =
      if u.role ≠ UserRole.admin ∧ b.created_by ≠ u.id then
        .error ⟨403, "Permission denied"⟩
      else
        .ok (applyBugUpdate b upd now, { s with bugs := setFirst (fun x => x.id == bid) (fun x => applyBugUpdate x upd now) s.bugs }) := by
  unfold update_bug
  rw [hb]

/-- The permission conditional of delete_bug decides exactly canMutate. -/
theorem delete_bug_denied_iff (s : Store) (bug_id : String)
    (u : User) (bug : Bug)
    (hb : s.bugs.find? (fun b => b.id == bug_id) = some bug) :
    delete_bug s bug_id u = .error ⟨403, "Permission denied"⟩ ↔
      canMutate u bug.created_by = false := by
  rw [canMutate_false_iff]
  unfold delete_bug
  rw [hb]
  by_cases hperm : u.role ≠ UserRole.admin ∧ bug.created_by ≠ u.id
  · simp [hperm]
  · simp [hperm]

/-- The permission conditional of update_fix decides exactly canMutate. -/
theorem update_fix_denied_iff (s : Store) (fix_id : String) (fix_update : FixUpdate)
    (u : User) (fix : Fix)
    (hf : s.fixes.find? (fun f => f.id == fix_id) = some fix) :
    update_fix s fix_id fix_update u = .error ⟨403, "Permission denied"⟩ ↔
      canMutate u fix.created_by = false := by
  rw [canMutate_false_iff]
  unfold update_fix
  rw [hf]
  by_cases hperm : u.role ≠ UserRole.admin ∧ fix.created_by ≠ u.id
  · simp [hperm]
  · simp [hperm]

/-- The permission conditional of update_idea decides exactly canMutate. -/
theorem update_idea_denied_iff (s : Store) (idea_id : String) (idea_update : IdeaUpdate)
    (u : User) (idea : Idea)
    (hi : s.ideas.find? (fun i => i.id == idea_id) = some idea) :
    update_idea s idea_id idea_update u = .error ⟨403, "Permission denied"⟩ ↔
      canMutate u idea.created_by = false := by
  rw [canMutate_false_iff]
  unfold update_idea
  rw [hi]
  by_cases hperm : u.role ≠ UserRole.admin ∧ idea.created_by ≠ u.id
  · simp [hperm]
  · simp [hperm]

/- ---------------------------------------------------------------------
Concrete fixtures for witnesses and counterexamples.
--------------------------------------------------------------------- -/

def devUser : User :=
  { id := "u-dev", username := "dev", email := "dev@example.com",
    password_hash := "$2b$12$saltsaltsaltsaltsaltsapw:x", role := UserRole.developer,
    created_at := 0 }

def dev2User : User :=
  { id := "u-dev2", username := "dev2", email := "dev2@example.com",
    password_hash := "$2b$12$saltsaltsaltsaltsaltsapw:x", role := UserRole.developer,
    created_at := 0 }

def adminUser : User :=
  { id := "u-admin", username := "boss", email := "boss@example.com",
    password_hash := "$2b$12$saltsaltsaltsaltsaltsapw:x", role := UserRole.admin,
    created_at := 0 }

def bug1 : Bug :=
  { id := "b1", title := "crash", description := "boom",
    priority := Priority.medium, status := BugStatus.«open», assigned_to := none,
    created_by := "u-dev", created_at := 10, updated_at := 10 }

def fix1 : Fix :=
  { id := "f1", title := "patch", description := "fixes b1",
    related_bug_id := some "b1", status := FixStatus.pending,
    created_by := "u-dev", created_at := 20 }

def idea1 : Idea :=
  { id := "i1", title := "idea", description := "better",
    priority := Priority.medium, status := IdeaStatus.new,
    created_by := "u-dev", created_at := 30 }

def emptyStore : Store :=
  { users := [], bugs := [], fixes := [], deployments := [], ideas := [] }

def store1 : Store :=
  { users := [devUser, dev2User, adminUser], bugs := [bug1], fixes := [fix1],
    deployments := [], ideas := [idea1] }

def emptyBugUpdate : BugUpdate :=
  { title := none, description := none, priority := none, status := none,
    assigned_to := none }

/- ---------------------------------------------------------------------
Claim theorems.
--------------------------------------------------------------------- -/

/-- C1: for every tracked-entity kind, update and delete pass the permission
check exactly for administrators and the creator of record: canMutate holds
for the creator and for any admin, fails for any other non-admin, and on each
operation, once the entity is found, Permission denied (403) is returned
exactly when canMutate is false. -/
theorem mutation_guard_admin_or_creator :
    (∀ (u : User) (cb : String), cb = u.id → canMutate u cb = true) ∧
    (∀ (v : User) (cb : String), v.role ≠ UserRole.admin → cb ≠ v.id →
      canMutate v cb = false) ∧
    (∀ (a : User) (cb : String), a.role = UserRole.admin → canMutate a cb = true) ∧
    (∀ s bid upd (u : User) now (b : Bug),
      s.bugs.find? (fun x => x.id == bid) = some b →
      (update_bug s bid upd u now = .error ⟨403, "Permission denied"⟩ ↔
        canMutate u b.created_by = false)) ∧
    (∀ s bid (u : User) (b : Bug),
      s.bugs.find? (fun x => x.id == bid) = some b →
      (delete_bug s bid u = .error ⟨403, "Permission denied"⟩ ↔
        canMutate u b.created_by = false)) ∧
    (∀ s fid upd (u : User) (f : Fix),
      s.fixes.find? (fun x => x.id == fid) = some f →
      (update_fix s fid upd u = .error ⟨403, "Permission denied"⟩ ↔
        canMutate u f.created_by = false)) ∧
    (∀ s iid upd (u : User) (i : Idea),
      s.ideas.find? (fun x => x.id == iid) = some i →
      (update_idea s iid upd u = .error ⟨403, "Permission denied"⟩ ↔
        canMutate u i.created_by = false)) := by
  refine ⟨?_, ?_, ?_, ?_, ?_, ?_, ?_⟩
  · intro u cb h
    exact (canMutate_true_iff u cb).mpr (Or.inr h)
  · intro v cb h1 h2
    exact (canMutate_false_iff v cb).mpr ⟨h1, h2⟩
  · intro a cb h
    exact (canMutate_true_iff a cb).mpr (Or.inl h)
  · intro s bid upd u now b hb
    exact update_bug_denied_iff s bid upd u now b hb
  · intro s bid u b hb
    exact delete_bug_denied_iff s bid u b hb
  · intro s fid upd u f hf
    exact update_fix_denied_iff s fid upd u f hf
  · intro s iid upd u i hi
    exact update_idea_denied_iff s iid upd u i hi

theorem mutation_guard_admin_or_creator_witness :
    canMutate devUser "u-dev" = true ∧
    canMutate dev2User "u-dev" = false ∧
    canMutate adminUser "u-dev" = true ∧
    (update_bug store1 "b1" emptyBugUpdate dev2User 99 =
        .error ⟨403, "Permission denied"⟩ ↔
      canMutate dev2User bug1.created_by = false) :=
  ⟨mutation_guard_admin_or_creator.1 devUser "u-dev" rfl,
   mutation_guard_admin_or_creator.2.1 dev2User "u-dev" (by decide) (by decide),
   mutation_guard_admin_or_creator.2.2.1 adminUser "u-dev" rfl,
   mutation_guard_admin_or_creator.2.2.2.1 store1 "b1" emptyBugUpdate dev2User 99
     bug1 rfl⟩

/-- C2: for update and delete on every tracked-entity kind, the existence
check strictly precedes the permission check: a missing entity yields 404 for
any caller, and a 403 can only arise when the entity was found. -/
theorem notfound_precedes_permission :
    (∀ s bid upd (u : User) now, s.bugs.find? (fun b => b.id == bid) = none →
      update_bug s bid upd u now = .error ⟨404, "Bug not found"⟩) ∧
    (∀ s bid (u : User), s.bugs.find? (fun b => b.id == bid) = none →
      delete_bug s bid u = .error ⟨404, "Bug not found"⟩) ∧
    (∀ s fid upd (u : User), s.fixes.find? (fun f => f.id == fid) = none →
      update_fix s fid upd u = .error ⟨404, "Fix not found"⟩) ∧
    (∀ s iid upd (u : User), s.ideas.find? (fun i => i.id == iid) = none →
      update_idea s iid upd u = .error ⟨404, "Idea not found"⟩) ∧
    (∀ s bid upd (u : User) now e, update_bug s bid upd u now = .error e →
      e.status_code = 403 → ∃ b, s.bugs.find? (fun x => x.id == bid) = some b) ∧
    (∀ s bid (u : User) e, delete_bug s bid u = .error e →
      e.status_code = 403 → ∃ b, s.bugs.find? (fun x => x.id == bid) = some b) ∧
    (∀ s fid upd (u : User) e, update_fix s fid upd u = .error e →
      e.status_code = 403 → ∃ f, s.fixes.find? (fun x => x.id == fid) = some f) ∧
    (∀ s iid upd (u : User) e, update_idea s iid upd u = .error e →
      e.status_code = 403 → ∃ i, s.ideas.find? (fun x => x.id == iid) = some i) := by
  refine ⟨?_, ?_, ?_, ?_, ?_, ?_, ?_, ?_⟩
  · intro s bid upd u now h
    simp [update_bug, h]
  · intro s bid u h
    simp [delete_bug, h]
  · intro s fid upd u h
    simp [update_fix, h]
  · intro s iid upd u h
    simp [update_idea, h]
  · intro s bid upd u now e he h403
    unfold update_bug at he
    cases hfind : s.bugs.find? (fun b => b.id == bid) with
    | none =>
      rw [hfind] at he
      simp at he
      rw [← he] at h403
      simp at h403
    | some b => exact ⟨b, rfl⟩
  · intro s bid u e he h403
    unfold delete_bug at he
    cases hfind : s.bugs.find? (fun b => b.id == bid) with
    | none =>
      rw [hfind] at he
      simp at he
      rw [← he] at h403
      simp at h403
    | some b => exact ⟨b, rfl⟩
  · intro s fid upd u e he h403
    unfold update_fix at he
    cases hfind : s.fixes.find? (fun f => f.id == fid) with
    | none =>
      rw [hfind] at he
      simp at he
      rw [← he] at h403
      simp at h403
    | some f => exact ⟨f, rfl⟩
  · intro s iid upd u e he h403
    unfold update_idea at he
    cases hfind : s.ideas.find? (fun i => i.id == iid) with
    | none =>
      rw [hfind] at he
      simp at he
      rw [← he] at h403
      simp at h403
    | some i => exact ⟨i, rfl⟩

theorem notfound_precedes_permission_witness :
    update_bug emptyStore "b1" emptyBugUpdate dev2User 0 =
      .error ⟨404, "Bug not found"⟩ ∧
    (∃ b, store1.bugs.find? (fun x => x.id == "b1") = some b) :=
  ⟨notfound_precedes_permission.1 emptyStore "b1" emptyBugUpdate dev2User 0 rfl,
   notfound_precedes_permission.2.2.2.2.1 store1 "b1" emptyBugUpdate dev2User 99
     ⟨403, "Permission denied"⟩ rfl rfl⟩

/-- C3: issuing a token for a subject identity and validating it within the
24-hour validity window resolves to that same live user, and validating any
token whose expiry has elapsed fails with the 401 authentication failure. -/
theorem token_roundtrip_and_expiry (s : Store) (u : User) (t0 t1 : Int)
    (hu : findUser s u.id = some u) :
    (t1 < t0 + JWT_EXPIRATION_HOURS * 3600 →
      get_current_user s (create_access_token u.id t0) t1 = .ok u) ∧
    (∀ (sub : Option String) (exp : Int), exp ≤ t1 →
      get_current_user s (.signed ⟨sub, exp⟩) t1 =
        .error ⟨401, "Invalid authentication credentials"⟩) := by
  constructor
  · intro h
    simp [get_current_user, create_access_token, jwtDecode, hu, not_le.mpr h]
  · intro sub exp h
    simp [get_current_user, jwtDecode, h]

theorem token_roundtrip_and_expiry_witness :
    get_current_user store1 (create_access_token devUser.id 0) 100 =
      .ok devUser ∧
    get_current_user store1 (.signed ⟨some devUser.id, 50⟩) 100 =
      .error ⟨401, "Invalid authentication credentials"⟩ :=
  ⟨(token_roundtrip_and_expiry store1 devUser 0 100 rfl).1 (by decide),
   (token_roundtrip_and_expiry store1 devUser 0 100 rfl).2 (some devUser.id)
     50 (by decide)⟩

/-- C4 counterexample: the two authentication failure cases are concretely
distinguishable. An undecodable token fails with detail "Invalid
authentication credentials" while a valid token whose subject user no longer
exists fails with detail "User not found", and the two failure values are
not equal, so the output does reveal which case occurred. -/
theorem auth_failure_distinguishable :
    get_current_user emptyStore Credential.invalid 0 =
      .error ⟨401, "Invalid authentication credentials"⟩ ∧
    get_current_user emptyStore (.signed ⟨some "ghost", 100⟩) 0 =
      .error ⟨401, "User not found"⟩ ∧
    (⟨401, "Invalid authentication credentials"⟩ : ApiError) ≠
      ⟨401, "User not found"⟩ := by
  refine ⟨rfl, rfl, ?_⟩
  decide

/-- C4 amended: the invalid/expired/undecodable-token failure and the
stale-identity failure share one status code, 401 (and every failure of
get_current_user carries status 401), but their detail strings differ
("Invalid authentication credentials" vs "User not found"), so the caller
can distinguish the two cases from the response body. -/
theorem auth_failure_status_collapses :
    (∀ s (cred : Credential) now, jwtDecode cred now = none →
      get_current_user s cred now =
        .error ⟨401, "Invalid authentication credentials"⟩) ∧
    (∀ s sub exp now, now < exp → findUser s sub = none →
      get_current_user s (.signed ⟨some sub, exp⟩) now =
        .error ⟨401, "User not found"⟩) ∧
    (∀ s (cred : Credential) now e, get_current_user s cred now = .error e →
      e.status_code = 401) := by
  refine ⟨?_, ?_, ?_⟩
  · intro s cred now h
    simp [get_current_user, h]
  · intro s sub exp now hlt hfu
    simp [get_current_user, jwtDecode, not_le.mpr hlt, hfu]
  · intro s cred now e he
    unfold get_current_user at he
    split at he
    · injection he with h
      rw [← h]
    · split at he
      · injection he with h
        rw [← h]
      · split at he
        · injection he with h
          rw [← h]
        · exact Except.noConfusion he

theorem auth_failure_status_collapses_witness :
    get_current_user store1 Credential.invalid 0 =
      .error ⟨401, "Invalid authentication credentials"⟩ ∧
    get_current_user store1 (.signed ⟨some "ghost", 100⟩) 0 =
      .error ⟨401, "User not found"⟩ ∧
    (⟨401, "User not found"⟩ : ApiError).status_code = 401 :=
  ⟨auth_failure_status_collapses.1 store1 Credential.invalid 0 rfl,
   auth_failure_status_collapses.2.1 store1 "ghost" 100 0 (by decide) rfl,
   auth_failure_status_collapses.2.2 store1 (.signed ⟨some "ghost", 100⟩) 0
     ⟨401, "User not found"⟩ rfl⟩

/-- C5 counterexample: remediation update refreshes no last-modified
timestamp. Updating only the status of fix f1 as its creator returns a record
equal to the stored one in every field except status; in particular its only
timestamp, created_at, still holds the creation time 20, and update_fix does
not even consume a current time, so no field of the result records the
modification time. -/
theorem sparse_patch_no_fix_timestamp :
    update_fix store1 "f1"
        { title := none, description := none, status := some FixStatus.deployed }
        devUser =
      .ok ({ fix1 with status := FixStatus.deployed },
        { store1 with fixes := [{ fix1 with status := FixStatus.deployed }] }) ∧
    ({ fix1 with status := FixStatus.deployed } : Fix).created_at = 20 := by
  constructor
  · rfl
  · rfl

/-- C5 amended: update is a sparse patch on every kind -- exactly the fields
present in the partial payload are applied, absent or null fields keep their
prior values, identity and ownership are untouched, and the updated record is
returned and persisted -- but the last-modified refresh exists only for
defects, whose updated_at is set to the current time; remediations and
proposals carry no last-modified timestamp and update_fix and update_idea
touch no timestamp at all. -/
theorem sparse_patch_semantics (s : Store) (u : User) (now : Int) :
    (∀ bid upd (b : Bug), s.bugs.find? (fun x => x.id == bid) = some b →
      canMutate u b.created_by = true →
      ∃ b2 s2, update_bug s bid upd u now = .ok (b2, s2) ∧
        b2.id = b.id ∧
        b2.created_by = b.created_by ∧
        b2.created_at = b.created_at ∧
        b2.updated_at = now ∧
        (upd.title = none → b2.title = b.title) ∧
        (∀ x, upd.title = some x → b2.title = x) ∧
        (upd.description = none → b2.description = b.description) ∧
        (∀ x, upd.description = some x → b2.description = x) ∧
        (upd.priority = none → b2.priority = b.priority) ∧
        (∀ x, upd.priority = some x → b2.priority = x) ∧
        (upd.status = none → b2.status = b.status) ∧
        (∀ x, upd.status = some x → b2.status = x) ∧
        (upd.assigned_to = none → b2.assigned_to = b.assigned_to) ∧
        (∀ x, upd.assigned_to = some x → b2.assigned_to = some x) ∧
        s2.bugs.find? (fun x => x.id == bid) = some b2) ∧
    (∀ fid upd (f : Fix), s.fixes.find? (fun x => x.id == fid) = some f →
      canMutate u f.created_by = true →
      ∃ f2 s2, update_fix s fid upd u = .ok (f2, s2) ∧
        f2.id = f.id ∧
        f2.created_by = f.created_by ∧
        f2.created_at = f.created_at ∧
        f2.related_bug_id = f.related_bug_id ∧
        (upd.title = none → f2.title = f.title) ∧
        (∀ x, upd.title = some x → f2.title = x) ∧
        (upd.description = none → f2.description = f.description) ∧
        (∀ x, upd.description = some x → f2.description = x) ∧
        (upd.status = none → f2.status = f.status) ∧
        (∀ x, upd.status = some x → f2.status = x) ∧
        s2.fixes.find? (fun x => x.id == fid) = some f2) ∧
    (∀ iid upd (i : Idea), s.ideas.find? (fun x => x.id == iid) = some i →
      canMutate u i.created_by = true →
      ∃ i2 s2, update_idea s iid upd u = .ok (i2, s2) ∧
        i2.id = i.id ∧
        i2.created_by = i.created_by ∧
        i2.created_at = i.created_at ∧
        (upd.title = none → i2.title = i.title) ∧
        (∀ x, upd.title = some x → i2.title = x) ∧
        (upd.description = none → i2.description = i.description) ∧
        (∀ x, upd.description = some x → i2.description = x) ∧
        (upd.priority = none → i2.priority = i.priority) ∧
        (∀ x, upd.priority = some x → i2.priority = x) ∧
        (upd.status = none → i2.status = i.status) ∧
        (∀ x, upd.status = some x → i2.status = x) ∧
        s2.ideas.find? (fun x => x.id == iid) = some i2) := by
  refine ⟨?_, ?_, ?_⟩
  · intro bid upd b hb hcan
    have hperm : ¬(u.role ≠ UserRole.admin ∧ b.created_by ≠ u.id) := by
      intro hc
      rw [(canMutate_false_iff u b.created_by).mpr hc] at hcan
      exact Bool.false_ne_true hcan
    have hid : (applyBugUpdate b upd now).id = b.id := by
      simp [applyBugUpdate]
    refine ⟨applyBugUpdate b upd now, { s with bugs := setFirst (fun x => x.id == bid) (fun x => applyBugUpdate x upd now) s.bugs }, ?_, hid, ?_, ?_, ?_, ?_, ?_, ?_, ?_, ?_, ?_, ?_, ?_, ?_, ?_, ?_⟩
    · simp [update_bug, hb, hperm]
    · simp [applyBugUpdate]
    · simp [applyBugUpdate]
    · simp [applyBugUpdate]
    · intro h
      simp [applyBugUpdate, h]
    · intro x h
      simp [applyBugUpdate, h]
    · intro h
      simp [applyBugUpdate, h]
    · intro x h
      simp [applyBugUpdate, h]
    · intro h
      simp [applyBugUpdate, h]
    · intro x h
      simp [applyBugUpdate, h]
    · intro h
      simp [applyBugUpdate, h]
    · intro x h
      simp [applyBugUpdate, h]
    · intro h
      simp [applyBugUpdate, h]
    · intro x h
      simp [applyBugUpdate, h]
    · have h2 := List.find?_some hb
      exact find?_setFirst _ _ s.bugs b hb (by simpa [hid] using h2)
  · intro fid upd f hf hcan
    have hperm : ¬(u.role ≠ UserRole.admin ∧ f.created_by ≠ u.id) := by
      intro hc
      rw [(canMutate_false_iff u f.created_by).mpr hc] at hcan
      exact Bool.false_ne_true hcan
    have hid : (applyFixUpdate f upd).id = f.id := by
      simp [applyFixUpdate]
    refine ⟨applyFixUpdate f upd, { s with fixes := setFirst (fun x => x.id == fid) (fun x => applyFixUpdate x upd) s.fixes }, ?_, hid, ?_, ?_, ?_, ?_, ?_, ?_, ?_, ?_, ?_, ?_⟩
    · simp [update_fix, hf, hperm]
    · simp [applyFixUpdate]
    · simp [applyFixUpdate]
    · simp [applyFixUpdate]
    · intro h
      simp [applyFixUpdate, h]
    · intro x h
      simp [applyFixUpdate, h]
    · intro h
      simp [applyFixUpdate, h]
    · intro x h
      simp [applyFixUpdate, h]
    · intro h
      simp [applyFixUpdate, h]
    · intro x h
      simp [applyFixUpdate, h]
    · have h2 := List.find?_some hf
      exact find?_setFirst _ _ s.fixes f hf (by simpa [hid] using h2)
  · intro iid upd i hi hcan
    have hperm : ¬(u.role ≠ UserRole.admin ∧ i.created_by ≠ u.id) := by
      intro hc
      rw [(canMutate_false_iff u i.created_by).mpr hc] at hcan
      exact Bool.false_ne_true hcan
    have hid : (applyIdeaUpdate i upd).id = i.id := by
      simp [applyIdeaUpdate]
    refine ⟨applyIdeaUpdate i upd, { s with ideas := setFirst (fun x => x.id == iid) (fun x => applyIdeaUpdate x upd) s.ideas }, ?_, hid, ?_, ?_, ?_, ?_, ?_, ?_, ?_, ?_, ?_, ?_, ?_⟩
    · simp [update_idea, hi, hperm]
    · simp [applyIdeaUpdate]
    · simp [applyIdeaUpdate]
    · intro h
      simp [applyIdeaUpdate, h]
    · intro x h
      simp [applyIdeaUpdate, h]
    · intro h
      simp [applyIdeaUpdate, h]
    · intro x h
      simp [applyIdeaUpdate, h]
    · intro h
      simp [applyIdeaUpdate, h]
    · intro x h
      simp [applyIdeaUpdate, h]
    · intro h
      simp [applyIdeaUpdate, h]
    · intro x h
      simp [applyIdeaUpdate, h]
    · have h2 := List.find?_some hi
      exact find?_setFirst _ _ s.ideas i hi (by simpa [hid] using h2)

theorem sparse_patch_semantics_witness :
    ∃ b2 s2, update_bug store1 "b1"
        { title := none, description := none, priority := none,
          status := some BugStatus.resolved, assigned_to := none }
        devUser 77 = .ok (b2, s2) ∧
      b2.title = bug1.title ∧ b2.description = bug1.description ∧
      b2.status = BugStatus.resolved ∧ b2.updated_at = 77 := by
  obtain ⟨b2, s2, hok, _, _, _, hupd, htn, _, hdn, _, _, _, _, hss, _, _, _⟩ :=
    (sparse_patch_semantics store1 devUser 77).1 "b1"
      { title := none, description := none, priority := none,
        status := some BugStatus.resolved, assigned_to := none }
      bug1 rfl rfl
  exact ⟨b2, s2, hok, htn rfl, hdn rfl, hss BugStatus.resolved rfl, hupd⟩

def futureDeployment : Deployment :=
  { id := "d-future", version := "2.0", description := "scheduled ahead",
    environment := Environment.prod, deployed_by := "u-dev",
    deployed_at := 1000001, changes_included := [] }

/-- C6 counterexample: evaluated at time 1000000, a release stamped 1000001
lies after the evaluation time, hence outside the trailing 7-day window
ending there, yet get_dashboard_stats counts it among recent_deployments,
because the code filters with a lower bound only. -/
theorem recent_releases_counts_future_release :
    (get_dashboard_stats { emptyStore with deployments := [futureDeployment] }
        1000000).recent_deployments = 1 ∧
    ¬(futureDeployment.deployed_at ≤ 1000000) := by
  constructor
  · decide
  · decide

/-- C6 amended: each dashboard count is exact -- three defects (two open, one
resolved) in an otherwise empty store report total 3, open 2, resolved 1 and
every other count 0 -- and recent_releases counts exactly the releases whose
timestamp is at least asOf minus 7 days, with no upper bound; whenever no
release is stamped after asOf this coincides with the trailing 7-day window
ending at asOf. -/
theorem dashboard_stats_exact (b1 b2 b3 : Bug) (now : Int)
    (h1 : b1.status = BugStatus.«open») (h2 : b2.status = BugStatus.«open»)
    (h3 : b3.status = BugStatus.resolved) :
    get_dashboard_stats { users := [], bugs := [b1, b2, b3], fixes := [], deployments := [], ideas := [] } now =
      { total_bugs := 3, open_bugs := 2, resolved_bugs := 1,
        pending_fixes := 0, deployed_fixes := 0, recent_deployments := 0,
        new_ideas := 0, total_users := 0 } ∧
    (∀ (s : Store) (asOf : Int),
      (get_dashboard_stats s asOf).recent_deployments =
        s.deployments.countP (fun d => decide (asOf - 7 * 86400 ≤ d.deployed_at))) ∧
    (∀ (s : Store) (asOf : Int), (∀ d ∈ s.deployments, d.deployed_at ≤ asOf) →
      (get_dashboard_stats s asOf).recent_deployments =
        s.deployments.countP
          (fun d => decide (asOf - 7 * 86400 ≤ d.deployed_at ∧ d.deployed_at ≤ asOf))) := by
  refine ⟨?_, ?_, ?_⟩
  · simp [get_dashboard_stats, List.countP_cons, h1, h2, h3]
  · intro s asOf
    rfl
  · intro s asOf hall
    show s.deployments.countP _ = s.deployments.countP _
    rw [List.countP_eq_length_filter, List.countP_eq_length_filter]
    congr 1
    apply List.filter_congr
    intro d hd
    simp [hall d hd]

theorem dashboard_stats_exact_witness :
    get_dashboard_stats { users := [], bugs := [bug1, { bug1 with id := "b2" }, { bug1 with id := "b3", status := BugStatus.resolved }], fixes := [], deployments := [], ideas := [] } 50 =
      { total_bugs := 3, open_bugs := 2, resolved_bugs := 1,
        pending_fixes := 0, deployed_fixes := 0, recent_deployments := 0,
        new_ideas := 0, total_users := 0 } :=
  (dashboard_stats_exact bug1 { bug1 with id := "b2" }
    { bug1 with id := "b3", status := BugStatus.resolved } 50 rfl rfl rfl).1

/-- C7 counterexample: verify_password applied to a malformed digest raises
the bcrypt ValueError (Invalid salt) instead of returning false. -/
theorem verify_password_raises_on_malformed :
    verify_password "password" "not-a-bcrypt-digest" = .error "Invalid salt" := by
  have h : bcryptWellFormed "not-a-bcrypt-digest" = false := by decide
  simp [verify_password, bcryptCheckpw, h]

/-- C7 amended: verify_password returns a boolean for every digest that
parses as a bcrypt encoding, but on a malformed digest it propagates the
bcrypt ValueError (Invalid salt) rather than returning false. -/
theorem verify_password_total_on_wellformed :
    (∀ password digest, bcryptWellFormed digest = false →
      verify_password password digest = .error "Invalid salt") ∧
    (∀ password digest, bcryptWellFormed digest = true →
      ∃ b, verify_password password digest = .ok b) := by
  constructor
  · intro password digest h
    simp [verify_password, bcryptCheckpw, h]
  · intro password digest h
    exact ⟨bcryptHashpw password ((digest.drop 7).take 22) == digest,
      by simp [verify_password, bcryptCheckpw, h]⟩

theorem verify_password_total_on_wellformed_witness :
    verify_password "pw" "plainly-wrong" = .error "Invalid salt" ∧
    (∃ b, verify_password "pw"
      (hash_password "pw" "abcdefghijklmnopqrstuv") = .ok b) :=
  ⟨verify_password_total_on_wellformed.1 "pw" "plainly-wrong" (by decide),
   verify_password_total_on_wellformed.2 "pw"
     (hash_password "pw" "abcdefghijklmnopqrstuv") (by decide)⟩

/-- A family of 1001 pairwise distinct defects, told apart by created_at. -/
def mkBugN (i : Nat) : Bug :=
  { id := "b", title := "t", description := "d", priority := Priority.medium,
    status := BugStatus.«open», assigned_to := none, created_by := "u-dev",
    created_at := (i : Int), updated_at := 0 }

def bigStore : Store :=
  { users := [], bugs := (List.range 1001).map mkBugN, fixes := [],
    deployments := [], ideas := [] }

set_option maxRecDepth 8000 in
/-- C8 counterexample: with 1001 defects in the collection, the defect
stamped created_at = 1000 is in the store but absent from the list result,
because find().to_list(1000) returns only the first 1000 documents. -/
theorem list_bugs_misses_1001st :
    mkBugN 1000 ∈ bigStore.bugs ∧ mkBugN 1000 ∉ get_bugs bigStore := by
  constructor
  · exact List.mem_map.mpr ⟨1000, List.mem_range.mpr (by norm_num), rfl⟩
  · intro hmem
    have hrw : get_bugs bigStore = (List.range 1000).map mkBugN := by
      show ((List.range 1001).map mkBugN).take 1000 = _
      rw [← List.map_take, List.take_range,
        Nat.min_eq_left (by norm_num : (1000 : Nat) ≤ 1001)]
    rw [hrw] at hmem
    obtain ⟨i, hi, heq⟩ := List.mem_map.mp hmem
    have hc : (i : Int) = (1000 : Nat) := congrArg Bug.created_at heq
    have : i = 1000 := by exact_mod_cast hc
    have : i < 1000 := by
      have := List.mem_range.mp hi
      omega
    omega

/-- C8 amended: on every kind, list is global and unfiltered by ownership,
but capped: it returns the first 1000 documents of the collection; whenever
the collection holds at most 1000 entities it returns every entity of the
kind. -/
theorem list_returns_collection_up_to_cap (s : Store) :
    (s.bugs.length ≤ 1000 → get_bugs s = s.bugs) ∧
    (s.fixes.length ≤ 1000 → get_fixes s = s.fixes) ∧
    (s.deployments.length ≤ 1000 → get_deployments s = s.deployments) ∧
    (s.ideas.length ≤ 1000 → get_ideas s = s.ideas) ∧
    (∀ b ∈ get_bugs s, b ∈ s.bugs) ∧
    (∀ f ∈ get_fixes s, f ∈ s.fixes) ∧
    (∀ d ∈ get_deployments s, d ∈ s.deployments) ∧
    (∀ i ∈ get_ideas s, i ∈ s.ideas) := by
  refine ⟨?_, ?_, ?_, ?_, ?_, ?_, ?_, ?_⟩
  · intro h
    exact List.take_of_length_le h
  · intro h
    exact List.take_of_length_le h
  · intro h
    exact List.take_of_length_le h
  · intro h
    exact List.take_of_length_le h
  · intro b hb
    exact List.take_subset 1000 s.bugs hb
  · intro f hf
    exact List.take_subset 1000 s.fixes hf
  · intro d hd
    exact List.take_subset 1000 s.deployments hd
  · intro i hi
    exact List.take_subset 1000 s.ideas hi

theorem list_returns_collection_up_to_cap_witness :
    get_bugs store1 = store1.bugs ∧ get_fixes store1 = store1.fixes ∧
    get_deployments store1 = store1.deployments ∧
    get_ideas store1 = store1.ideas :=
  ⟨(list_returns_collection_up_to_cap store1).1 (by decide),
   (list_returns_collection_up_to_cap store1).2.1 (by decide),
   (list_returns_collection_up_to_cap store1).2.2.1 (by decide),
   (list_returns_collection_up_to_cap store1).2.2.2.1 (by decide)⟩

/-- C9: registration accepts a caller-supplied role with no restriction and
no authentication: register consumes no credential at all, and for any
payload with role admin and a fresh username and email it creates and
persists a user whose role is admin. -/
theorem register_grants_caller_chosen_admin (s : Store) (user_data : UserCreate)
    (new_id salt : String) (now : Int)
    (hfresh : s.users.find? (fun u =>
      u.username == user_data.username || u.email == user_data.email) = none)
    (hrole : user_data.role = UserRole.admin) :
    ∃ u s2, register s user_data new_id salt now = .ok (u, s2) ∧
      u.role = UserRole.admin ∧ u.username = user_data.username ∧
      u.email = user_data.email ∧ u.id = new_id ∧
      s2.users = s.users ++ [u] := by
  refine ⟨{ id := new_id, username := user_data.username, email := user_data.email, password_hash := hash_password user_data.password salt, role := user_data.role, created_at := now }, { s with users := s.users ++ [{ id := new_id, username := user_data.username, email := user_data.email, password_hash := hash_password user_data.password salt, role := user_data.role, created_at := now }] }, ?_, hrole, rfl, rfl, rfl, rfl⟩
  simp [register, hfresh]

theorem register_grants_caller_chosen_admin_witness :
    ∃ u s2, register emptyStore
        { username := "root", email := "root@example.com", password := "pw",
          role := UserRole.admin } "u-root" "abcdefghijklmnopqrstuv" 5 =
        .ok (u, s2) ∧
      u.role = UserRole.admin ∧ u.username = "root" ∧
      u.email = "root@example.com" ∧ u.id = "u-root" ∧
      s2.users = emptyStore.users ++ [u] :=
  register_grants_caller_chosen_admin emptyStore
    { username := "root", email := "root@example.com", password := "pw",
      role := UserRole.admin } "u-root" "abcdefghijklmnopqrstuv" 5 rfl rfl

/-- The JSON body of a defect update before pydantic parsing: the outer
Option marks whether the field is present at all; a present field may hold
an explicit null (some none) or a value (some (some v)). -/
structure BugUpdateWire where
  title : Option (Option String)
  description : Option (Option String)
  priority : Option (Option Priority)
  status : Option (Option BugStatus)
  assigned_to : Option (Option String)
deriving DecidableEq

/-- Pydantic parsing of BugUpdate: every field defaults to None when absent,
and an explicit null also parses to None, so the two collapse (Option.join). -/
def parseBugUpdate (w : BugUpdateWire) : BugUpdate :=
  { title := w.title.join
    description := w.description.join
    priority := w.priority.join
    status := w.status.join
    assigned_to := w.assigned_to.join }

/-- Wire form of FixUpdate, parsed the same way. -/
structure FixUpdateWire where
  title : Option (Option String)
  description : Option (Option String)
  status : Option (Option FixStatus)
deriving DecidableEq

def parseFixUpdate (w : FixUpdateWire) : FixUpdate :=
  { title := w.title.join
    description := w.description.join
    status := w.status.join }

/-- Wire form of IdeaUpdate, parsed the same way. -/
structure IdeaUpdateWire where
  title : Option (Option String)
  description : Option (Option String)
  priority : Option (Option Priority)
  status : Option (Option IdeaStatus)
deriving DecidableEq

def parseIdeaUpdate (w : IdeaUpdateWire) : IdeaUpdate :=
  { title := w.title.join
    description := w.description.join
    priority := w.priority.join
    status := w.status.join }

def bug2 : Bug :=
  { id := "b2", title := "leak", description := "drip",
    priority := Priority.high, status := BugStatus.in_progress,
    assigned_to := some "u-dev2", created_by := "u-dev",
    created_at := 40, updated_at := 40 }

def store2 : Store :=
  { users := [devUser, dev2User], bugs := [bug2], fixes := [],
    deployments := [], ideas := [] }

def wireNullAssigned : BugUpdateWire :=
  { title := none, description := none, priority := none,
    status := some (some BugStatus.resolved), assigned_to := some none }

/-- C10: on every kind's update payload -- all five BugUpdate fields, all
three FixUpdate fields, all four IdeaUpdate fields -- a field supplied as
explicit null parses identically to an omitted field (both collapse to None
before the non-None filter), so the two update calls coincide; consequently
a set assigned_to can never be reset to null through update: when the stored
defect has assigned_to set, the updated record's assigned_to is still set,
whatever the payload. -/
theorem null_payload_equals_absent :
    (∀ w : BugUpdateWire,
      parseBugUpdate { w with title := some none } =
        parseBugUpdate { w with title := none } ∧
      parseBugUpdate { w with description := some none } =
        parseBugUpdate { w with description := none } ∧
      parseBugUpdate { w with priority := some none } =
        parseBugUpdate { w with priority := none } ∧
      parseBugUpdate { w with status := some none } =
        parseBugUpdate { w with status := none } ∧
      parseBugUpdate { w with assigned_to := some none } =
        parseBugUpdate { w with assigned_to := none }) ∧
    (∀ w : FixUpdateWire,
      parseFixUpdate { w with title := some none } =
        parseFixUpdate { w with title := none } ∧
      parseFixUpdate { w with description := some none } =
        parseFixUpdate { w with description := none } ∧
      parseFixUpdate { w with status := some none } =
        parseFixUpdate { w with status := none }) ∧
    (∀ w : IdeaUpdateWire,
      parseIdeaUpdate { w with title := some none } =
        parseIdeaUpdate { w with title := none } ∧
      parseIdeaUpdate { w with description := some none } =
        parseIdeaUpdate { w with description := none } ∧
      parseIdeaUpdate { w with priority := some none } =
        parseIdeaUpdate { w with priority := none } ∧
      parseIdeaUpdate { w with status := some none } =
        parseIdeaUpdate { w with status := none }) ∧
    (∀ s bid (w : BugUpdateWire) (u : User) now,
      update_bug s bid (parseBugUpdate { w with assigned_to := some none }) u now =
      update_bug s bid (parseBugUpdate { w with assigned_to := none }) u now) ∧
    (∀ s bid (w : BugUpdateWire) (u : User) now (b b2 : Bug) (s2 : Store),
      s.bugs.find? (fun x => x.id == bid) = some b →
      b.assigned_to ≠ none →
      update_bug s bid (parseBugUpdate w) u now = .ok (b2, s2) →
      b2.assigned_to ≠ none) := by
  refine ⟨?_, ?_, ?_, ?_, ?_⟩
  · intro w
    refine ⟨?_, ?_, ?_, ?_, ?_⟩ <;> simp [parseBugUpdate]
  · intro w
    refine ⟨?_, ?_, ?_⟩ <;> simp [parseFixUpdate]
  · intro w
    refine ⟨?_, ?_, ?_, ?_⟩ <;> simp [parseIdeaUpdate]
  · intro s bid w u now
    have h : parseBugUpdate { w with assigned_to := some none } =
        parseBugUpdate { w with assigned_to := none } := by
      simp [parseBugUpdate]
    rw [h]
  · intro s bid w u now b b2 s2 hb hset hok
    rw [update_bug_found s bid (parseBugUpdate w) u now b hb] at hok
    split at hok
    · exact absurd hok (by simp)
    · simp only [Except.ok.injEq, Prod.mk.injEq] at hok
      obtain ⟨h1, h2⟩ := hok
      rw [← h1]
      cases h3 : (parseBugUpdate w).assigned_to with
      | none => simpa [applyBugUpdate, h3] using hset
      | some v => simp [applyBugUpdate, h3]

theorem null_payload_equals_absent_witness :
    update_bug store2 "b2" (parseBugUpdate wireNullAssigned) devUser 70 =
      update_bug store2 "b2"
        (parseBugUpdate { wireNullAssigned with assigned_to := none })
        devUser 70 ∧
    (applyBugUpdate bug2 (parseBugUpdate wireNullAssigned) 70).assigned_to ≠
      none :=
  ⟨null_payload_equals_absent.2.2.2.1 store2 "b2"
    { wireNullAssigned with assigned_to := none } devUser 70,
   null_payload_equals_absent.2.2.2.2 store2 "b2" wireNullAssigned devUser 70
     bug2 (applyBugUpdate bug2 (parseBugUpdate wireNullAssigned) 70) _ rfl
     (by decide) rfl⟩

end DeploymentTracker
